import Mathlib

/-!
Verification of the Credit Card Analyzer against its specification.

The repository's `src/app.py` holds the Streamlit page logic
(`process_card_analysis`, `card_analysis_page`, `database_query_page`).
The service layer it calls (`CreditCardValidator`, `DatabaseService`,
`BlobStorageService`) is not part of the provided sources, so those
operations are modelled from the specification's words; each such
definition says so in its doc comment.  The page logic itself is embedded
directly from `src/app.py`.
-/

namespace CreditCardAnalyzer

/-! ## Card Validator: the Luhn checksum (spec §4.2 rule 2) -/

/-- Modelled from the spec: doubling step of the Luhn checksum — double the
digit and subtract 9 from any result over 9 (equivalently, reduce a
two-digit result to its digit sum). -/
def luhnDouble (d : Nat) : Nat :=
  if 9 < 2 * d then 2 * d - 9 else 2 * d

/-- Modelled from the spec: the validator's running Luhn sum over the digits
given right-to-left; the Boolean says whether the digit at the head is one
of the doubled ones, and it alternates at each step. -/
def luhnAux : List Nat → Bool → Nat
  | [], _ => 0
  | d :: ds, dbl => (if dbl then luhnDouble d else d) + luhnAux ds (!dbl)

/-- Modelled from the spec (`CreditCardValidator` is not under the provided
sources): the Luhn sum of a card number's digits, iterating right-to-left
and starting with an undoubled rightmost digit. -/
def luhnSum (ds : List Nat) : Nat :=
  luhnAux ds.reverse false

/-- The claim's own description of the Luhn sum, stated positionally: the
digit at 0-based position `k` from the rightmost is doubled exactly when
`k` is odd (every second digit from the rightmost). -/
def luhnFromIndex : List Nat → Nat → Nat
  | [], _ => 0
  | d :: ds, k => (if k % 2 = 1 then luhnDouble d else d) + luhnFromIndex ds (k + 1)

/-- The claim-style Luhn sum: digits right-to-left, position 0 the rightmost. -/
def luhnSpecSum (ds : List Nat) : Nat :=
  luhnFromIndex ds.reverse 0

/-- Digits of a digit string, most significant first. -/
def digitsOf (s : String) : List Nat :=
  s.data.map (fun c => c.toNat - 48)

/-- Modelled from the spec: the checksum check of the Card Validator —
passes exactly when the Luhn sum of the digits is divisible by 10. -/
def checksumPasses (s : String) : Bool :=
  luhnSum (digitsOf s) % 10 == 0

lemma luhnFromIndex_eq_aux (l : List Nat) :
    ∀ k, luhnFromIndex l k = luhnAux l (decide (k % 2 = 1)) := by
  induction l with
  | nil => intro k; rfl
  | cons d ds ih =>
    intro k
    have hflip : (!decide (k % 2 = 1)) = decide ((k + 1) % 2 = 1) := by
      rcases Nat.mod_two_eq_zero_or_one k with h | h <;>
        simp [h, Nat.add_mod]
    rcases Nat.mod_two_eq_zero_or_one k with h | h <;>
      simp [luhnFromIndex, luhnAux, ih (k + 1), ← hflip, h]

lemma luhnSpecSum_eq_luhnSum (ds : List Nat) : luhnSpecSum ds = luhnSum ds := by
  simp [luhnSpecSum, luhnSum, luhnFromIndex_eq_aux]

/-! ## Card Validator: the expiry check (spec §4.2 rule 4) -/

/-- Modelled from the spec (`CreditCardValidator` is not under the provided
sources): the expiry-not-in-the-past check, compared against the injected
current month/year — the expiry year must be at least the current year,
and in the current year the expiry month must be at least the current
month. -/
def expiryNotPast (nowMonth nowYear expMonth expYear : Nat) : Bool :=
  (nowYear < expYear) || (expYear == nowYear && nowMonth ≤ expMonth)

/-- The month/year one month before the given month/year. -/
def prevMonth (m y : Nat) : Nat × Nat :=
  if m = 1 then (12, y - 1) else (m - 1, y)

/-! ## Field Normalizer (spec §4.1) -/

/-- Modelled from the spec (the normalizer is not under the provided
sources): card-number normalization strips all non-digit characters. -/
def normalizeCardNumber (s : String) : String :=
  ⟨s.data.filter Char.isDigit⟩

/-- Modelled from the spec: one pass over the characters that trims
leading/trailing whitespace and collapses internal whitespace runs to a
single space; the Boolean records whether a whitespace run is pending. -/
def collapseAux : List Char → Bool → List Char
  | [], _ => []
  | c :: cs, pending =>
    if c.isWhitespace then collapseAux cs true
    else if pending then ' ' :: c :: collapseAux cs false
    else c :: collapseAux cs false

/-- Modelled from the spec (the normalizer is not under the provided
sources): holder/bank name normalization — trim whitespace, collapse
internal whitespace runs, preserve case. -/
def normalizeName (s : String) : String :=
  ⟨collapseAux (s.data.dropWhile Char.isWhitespace) false⟩

lemma collapseAux_idem (l : List Char) :
    collapseAux (collapseAux l false) false = collapseAux l false ∧
      collapseAux (collapseAux l true) false = collapseAux l true := by
  induction l with
  | nil => exact ⟨rfl, rfl⟩
  | cons c cs ih =>
    by_cases hw : c.isWhitespace
    · refine ⟨?_, ?_⟩ <;> simpa [collapseAux, hw] using ih.2
    · have hsp : (' ' : Char).isWhitespace = true := by decide
      constructor
      · simp [collapseAux, hw, ih.1]
      · simp [collapseAux, hw, hsp, ih.1]

/-! ## Data model: Python dictionaries as association lists

`card_info` in `src/app.py` is a Python dict; we model it as an ordered
association list with unique-key update semantics (assignment to an
existing key replaces its value in place, a new key is appended). -/

/-- A value stored in a card-info dict: the extractor yields strings, the
page adds a Boolean (`is_valid`) and a timestamp string. -/
inductive Value where
  | str (s : String)
  | bool (b : Bool)
deriving DecidableEq, Repr

/-- A Python dict of extracted card fields, as an association list. -/
abbrev CardInfo := List (String × Value)

/-- Dict lookup: the value at the first occurrence of the key. -/
def getKey : CardInfo → String → Option Value
  | [], _ => none
  | (k0, v0) :: ms, k => if k0 = k then some v0 else getKey ms k

/-- Dict assignment `m[k] = v`: replace the value at an existing key,
append a new key at the end. -/
def setKey : CardInfo → String → Value → CardInfo
  | [], k, v => [(k, v)]
  | (k0, v0) :: ms, k, v =>
    if k0 = k then (k, v) :: ms else (k0, v0) :: setKey ms k v

/-- Lookup with the empty-string default, used for the card number. -/
def getKeyD (m : CardInfo) (k : String) : Value :=
  (getKey m k).getD (.str "")

lemma getKey_setKey_same (m : CardInfo) (k : String) (v : Value) :
    getKey (setKey m k v) k = some v := by
  induction m with
  | nil => simp [setKey, getKey]
  | cons p ms ih =>
    by_cases h : p.1 = k <;> simp [setKey, getKey, h, ih]

lemma getKey_setKey_other (m : CardInfo) (k k2 : String) (v : Value)
    (hne : k2 ≠ k) : getKey (setKey m k v) k2 = getKey m k2 := by
  induction m with
  | nil => simp [setKey, getKey, Ne.symm hne]
  | cons p ms ih =>
    by_cases h : p.1 = k
    · simp [setKey, getKey, h, Ne.symm hne]
    · by_cases h2 : p.1 = k2 <;> simp [setKey, getKey, h, h2, hne, ih]

/-- The validator's result dict; the page reads its `is_valid` entry and
shows the per-field failure reasons. -/
structure Verdict where
  is_valid : Bool
  failures : List (String × String)
deriving DecidableEq, Repr

/-! ## Record Store

`DatabaseService` is not under the provided sources; the store is modelled
from the spec: records keyed by `card_number`, a fresh monotonically
increasing id on insert, exact-match lookup by card number. -/

/-- Modelled from the spec: the durable table of card records, each row an
assigned id with the persisted dict, plus the next id to assign. -/
structure Store where
  rows : List (Nat × CardInfo)
  nextId : Nat
deriving DecidableEq, Repr

/-- The card-number value of a record, with the empty-string default. -/
def cardNumberOf (m : CardInfo) : Value :=
  getKeyD m "card_number"

/-- Modelled from the spec: `get_card_by_number` — exact-match lookup of a
row by its card number; absence is not an error. -/
def get_card_by_number (st : Store) (n : Value) : Option (Nat × CardInfo) :=
  st.rows.find? (fun r => decide (cardNumberOf r.2 = n))

/-- Modelled from the spec: `insert_card` — persist the record under a
fresh monotonically increasing id. -/
def insert_card (st : Store) (m : CardInfo) : Store :=
  { rows := st.rows ++ [(st.nextId, m)], nextId := st.nextId + 1 }

/-- The store's uniqueness invariant: no two rows share a card number. -/
def distinctNumbers (st : Store) : Prop :=
  st.rows.Pairwise (fun a b => cardNumberOf a.2 ≠ cardNumberOf b.2)

/-! ## Page logic from `src/app.py` -/

/-- A store operation the page performs, recorded as a trace. -/
inductive StoreOp where
  | lookup (n : Value)
  | insert (m : CardInfo)
deriving DecidableEq, Repr

/-- The user-visible outcome of the store-updating part of the analysis
page. -/
inductive AnalysisMsg where
  | invalidCard
  | alreadyExists (id : Nat)
  | inserted
deriving DecidableEq, Repr

/-- The store-updating branch of `card_analysis_page` (src/app.py lines
300-316): on a valid verdict, look up the card number; if present report
the existing id, otherwise set `is_valid` and `processed_at` on the dict
and insert it; on an invalid verdict report the failure and touch nothing.
Returns the new store, the message, and the trace of store operations. -/
def analyzeStep (st : Store) (card_info : CardInfo) (vr : Verdict)
    (now : Value) : Store × AnalysisMsg × List StoreOp :=
  if vr.is_valid then
    match get_card_by_number st (cardNumberOf card_info) with
    | some existing =>
      (st, .alreadyExists existing.1, [.lookup (cardNumberOf card_info)])
    | none =>
      ( insert_card st
          (setKey (setKey card_info "is_valid" (.bool vr.is_valid))
            "processed_at" now),
        .inserted,
        [.lookup (cardNumberOf card_info),
          .insert (setKey (setKey card_info "is_valid" (.bool vr.is_valid))
            "processed_at" now)])
  else (st, .invalidCard, [])

/-! ## `process_card_analysis` from `src/app.py` (lines 49-83)

The collaborators (blob upload, extraction, validation) are passed in as
outcomes: `Except` captures a raised Python exception, the inner `Option`
a `None` return.  The whole body runs inside `try/except Exception`, so a
raised exception becomes a reported error with result `None`.  The third
component of the result records whether the extraction call was made. -/

/-- Embedding of `process_card_analysis`: returns the `(card_info,
validation_result)` pair or `none`, the error messages shown, and whether
extraction was invoked. -/
def process_card_analysis
    (upload : Except String (Option String))
    (detect : String → Except String (Option CardInfo))
    (validate : CardInfo → Except String Verdict) :
    Option (CardInfo × Verdict) × List String × Bool :=
  match upload with
  | .error e => (none, ["Error during card analysis: " ++ e], false)
  | .ok none => (none, ["Error uploading image to Blob Storage."], false)
  | .ok (some url) =>
    if url.isEmpty then (none, ["Error uploading image to Blob Storage."], false)
    else
      match detect url with
      | .error e => (none, ["Error during card analysis: " ++ e], true)
      | .ok none => (none, ["Unable to analyze card."], true)
      | .ok (some info) =>
        if info.isEmpty then (none, ["Unable to analyze card."], true)
        else
          match validate info with
          | .error e => (none, ["Error during card analysis: " ++ e], true)
          | .ok vr => (some (info, vr), [], true)

/-- Embedding of `card_analysis_page`: run `process_card_analysis`; only
when it returns a pair does the store-updating branch run.  Returns the
final store and the trace of store operations. -/
def card_analysis_full
    (upload : Except String (Option String))
    (detect : String → Except String (Option CardInfo))
    (validate : CardInfo → Except String Verdict)
    (st : Store) (now : Value) : Store × List StoreOp :=
  match process_card_analysis upload detect validate with
  | (none, _, _) => (st, [])
  | (some (info, vr), _, _) =>
    ((analyzeStep st info vr now).1, (analyzeStep st info vr now).2.2)

/-! ## Query Gateway (spec §4.4)

`DatabaseService.execute_custom_query` is not under the provided sources;
the gateway's safety policy is modelled from the spec: reject empty or
whitespace-only text, require the leading keyword to be a read operation,
reject a statement separator outside a quoted literal, reject the comment
marker used to smuggle a second statement.  Quote characters are written
by code point (39 is the single quote, 34 the double quote). -/

/-- The leading keyword of the query text: the first run of letters after
leading whitespace, lowercased. -/
def leadingKeyword (q : String) : String :=
  ⟨((q.data.dropWhile Char.isWhitespace).takeWhile Char.isAlpha).map Char.toLower⟩

/-- Modelled from the spec: the mutating keywords rejected outright. -/
def mutatingKeywords : List String :=
  ["insert", "update", "delete", "drop", "alter", "create", "replace",
    "attach", "pragma"]

/-- Modelled from the spec: the read operations the gateway accepts. -/
def readKeywords : List String := ["select"]

/-- Modelled from the spec: scan for a statement separator outside a
quoted literal; the state is the code point of the unclosed quote, if
any. -/
def hasStackedStatement : List Char → Option Nat → Bool
  | [], _ => false
  | c :: cs, none =>
    if c = ';' then true
    else if c.toNat = 39 ∨ c.toNat = 34 then hasStackedStatement cs (some c.toNat)
    else hasStackedStatement cs none
  | c :: cs, some q =>
    if c.toNat = q then hasStackedStatement cs none
    else hasStackedStatement cs (some q)

/-- Modelled from the spec: scan for the comment marker (two dashes)
outside a quoted literal. -/
def hasCommentMarker : List Char → Option Nat → Bool
  | [], _ => false
  | c :: cs, none =>
    if c.toNat = 39 ∨ c.toNat = 34 then hasCommentMarker cs (some c.toNat)
    else
      match cs with
      | c2 :: _ => if c = '-' ∧ c2 = '-' then true else hasCommentMarker cs none
      | [] => false
  | c :: cs, some q =>
    if c.toNat = q then hasCommentMarker cs none
    else hasCommentMarker cs (some q)

/-- Modelled from the spec: the gateway's classification of the query text
as a single read-only statement. -/
def isQuerySafe (q : String) : Bool :=
  !(q.data.dropWhile Char.isWhitespace).isEmpty
    && readKeywords.contains (leadingKeyword q)
    && !hasStackedStatement q.data none
    && !hasCommentMarker q.data none

/-- The gateway's error taxonomy: a validation failure precedes any
execution attempt, an execution failure surfaces an engine error. -/
inductive GatewayError where
  | validationFailure (msg : String)
  | executionFailure (msg : String)
deriving DecidableEq, Repr

/-- Modelled from the spec: `execute_custom_query` — validate the text
first; only an approved text reaches the engine (which receives the store
and may return rows, an error, and a possibly changed store). -/
def execute_custom_query
    (engine : Store → String → Except String (List CardInfo) × Store)
    (st : Store) (q : String) : Except GatewayError (List CardInfo) × Store :=
  if isQuerySafe q then
    match engine st q with
    | (.ok rows, st2) => (.ok rows, st2)
    | (.error e, st2) => (.error (.executionFailure e), st2)
  else
    (.error (.validationFailure "query text is not a single read-only statement"),
      st)

/-! ## The custom-query page from `src/app.py` (lines 134-157) -/

/-- A Python exception as the page's `except` clauses see it: a
`ValueError` or any other exception. -/
inductive PyExn where
  | valueErr (msg : String)
  | otherErr (msg : String)
deriving DecidableEq, Repr

/-- What the custom-query page shows for one button press. -/
inductive QueryPageMsg where
  | dataframeShown (rows : List CardInfo)
  | infoNoResults
  | validationShown (msg : String)
  | executionShown (msg : String)
deriving DecidableEq, Repr

/-- Embedding of the Execute Query branch of `database_query_page`: a
`ValueError` is shown as a validation error, any other exception as an
execution error, an empty result as the informational no-results message,
and a non-empty result as a dataframe. -/
def database_query_button (outcome : Except PyExn (List CardInfo)) :
    QueryPageMsg :=
  match outcome with
  | .error (.valueErr m) => .validationShown m
  | .error (.otherErr m) => .executionShown m
  | .ok rows => if rows.isEmpty then .infoNoResults else .dataframeShown rows

/-! # Supporting lemmas -/

lemma dropWhile_ws_head (l : List Char) (c : Char) (cs : List Char)
    (h : l.dropWhile Char.isWhitespace = c :: cs) : c.isWhitespace = false := by
  induction l with
  | nil => simp [List.dropWhile] at h
  | cons a as ih =>
    rw [List.dropWhile_cons] at h
    by_cases ha : a.isWhitespace
    · exact ih (by simpa [ha] using h)
    · simp [ha] at h
      rw [← h.1]
      simpa using ha

lemma collapseAux_no_leading_ws (l : List Char) :
    (collapseAux (l.dropWhile Char.isWhitespace) false).dropWhile
        Char.isWhitespace
      = collapseAux (l.dropWhile Char.isWhitespace) false := by
  rcases hd : l.dropWhile Char.isWhitespace with _ | ⟨c, cs⟩
  · rfl
  · have hc : c.isWhitespace = false := dropWhile_ws_head l c cs hd
    simp [collapseAux, hc, List.dropWhile_cons]

lemma cardNumberOf_of_updates (info : CardInfo) (v now : Value) :
    cardNumberOf
        (setKey (setKey info "is_valid" v) "processed_at" now)
      = cardNumberOf info := by
  unfold cardNumberOf getKeyD
  rw [getKey_setKey_other _ _ _ _ (by decide),
    getKey_setKey_other _ _ _ _ (by decide)]

/-! # Claims -/

/-- C1: for every digit string, the Card Validator's checksum check passes
if and only if the Luhn sum — iterating digits right-to-left, doubling
every second digit from the rightmost, subtracting 9 from any doubled
result over 9, and summing all digits — is congruent to 0 mod 10; the
known vectors "4532015112830366" (pass) and "4532015112830367" (fail)
behave as stated. -/
theorem checksum_iff_luhn :
    (∀ s : String,
        checksumPasses s = true ↔ luhnSpecSum (digitsOf s) % 10 = 0) ∧
      checksumPasses "4532015112830366" = true ∧
      checksumPasses "4532015112830367" = false := by
  refine ⟨fun s => ?_, by decide, by decide⟩
  simp [checksumPasses, luhnSpecSum_eq_luhnSum]

/-- C5: the expiry check compares against the injected current month/year:
an expiry equal to the current month/year passes, one a month in the past
fails; with now = 2030-01, expiry 2029-12 fails and expiry 2030-01
passes. -/
theorem expiry_time_dependent (nowMonth nowYear : Nat)
    (hm : 1 ≤ nowMonth) (hy : 1 ≤ nowYear) :
    expiryNotPast nowMonth nowYear nowMonth nowYear = true ∧
      expiryNotPast nowMonth nowYear (prevMonth nowMonth nowYear).1
        (prevMonth nowMonth nowYear).2 = false ∧
      expiryNotPast 1 2030 12 2029 = false ∧
      expiryNotPast 1 2030 1 2030 = true := by
  refine ⟨by simp [expiryNotPast], ?_, by decide, by decide⟩
  by_cases h : nowMonth = 1 <;>
    simp only [expiryNotPast, prevMonth, h, if_true, if_false, reduceIte] <;>
    simp <;> omega

/-- Witness for C5 at now = 2030-01. -/
theorem expiry_time_dependent_witness :
    1 ≤ 1 ∧ 1 ≤ 2030 ∧
      (expiryNotPast 1 2030 1 2030 = true ∧
        expiryNotPast 1 2030 (prevMonth 1 2030).1 (prevMonth 1 2030).2 = false ∧
        expiryNotPast 1 2030 12 2029 = false ∧
        expiryNotPast 1 2030 1 2030 = true) :=
  ⟨by decide, by decide,
    expiry_time_dependent 1 2030 (by decide) (by decide)⟩

/-- C7: normalization is idempotent — normalizing an already-normalized
card number or name is a no-op. -/
theorem normalize_idempotent (x : String) :
    normalizeCardNumber (normalizeCardNumber x) = normalizeCardNumber x ∧
      normalizeName (normalizeName x) = normalizeName x := by
  constructor
  · show (⟨(x.data.filter Char.isDigit).filter Char.isDigit⟩ : String) = _
    rw [List.filter_filter]
    simp [normalizeCardNumber]
  · show (⟨collapseAux (((collapseAux (x.data.dropWhile Char.isWhitespace)
        false)).dropWhile Char.isWhitespace) false⟩ : String) = _
    rw [collapseAux_no_leading_ws]
    exact congrArg String.mk (collapseAux_idem _).1

/-- C2: for every query text the classifier does not accept as a single
read-only statement, the gateway fails with a validation error before any
execution — for every engine the store comes back unchanged; moreover
empty text, whitespace-only text, any text with a mutating leading
keyword, and the three spec vectors are all classified unsafe. -/
theorem query_gateway_rejects
    (engine : Store → String → Except String (List CardInfo) × Store)
    (st : Store) (q : String) (h : isQuerySafe q = false) :
    execute_custom_query engine st q =
        (.error (.validationFailure
          "query text is not a single read-only statement"), st) ∧
      isQuerySafe "" = false ∧
      isQuerySafe "   " = false ∧
      (∀ q2 : String, leadingKeyword q2 ∈ mutatingKeywords →
        isQuerySafe q2 = false) ∧
      isQuerySafe "DROP TABLE cards" = false ∧
      isQuerySafe "SELECT * FROM cards; DROP TABLE cards" = false ∧
      isQuerySafe "SELECT * FROM cards -- ; DROP TABLE cards" = false := by
  refine ⟨by simp [execute_custom_query, h], by decide, by decide, ?_,
    by decide, by decide, by decide⟩
  intro q2 hq2
  have hsel : readKeywords.contains (leadingKeyword q2) = false := by
    simp only [mutatingKeywords, List.mem_cons, List.not_mem_nil, or_false]
      at hq2
    rcases hq2 with h2 | h2 | h2 | h2 | h2 | h2 | h2 | h2 | h2 <;>
      rw [h2] <;> decide
  unfold isQuerySafe
  rw [hsel]
  simp

/-- Witness for C2 at the vector "DROP TABLE cards" and a trivial engine
over the empty store. -/
theorem query_gateway_rejects_witness :
    isQuerySafe "DROP TABLE cards" = false ∧
      execute_custom_query (fun st _ => (.ok [], st)) ⟨[], 0⟩
          "DROP TABLE cards" =
        (.error (.validationFailure
          "query text is not a single read-only statement"), ⟨[], 0⟩) :=
  ⟨by decide,
    (query_gateway_rejects (fun st _ => (.ok [], st)) ⟨[], 0⟩
      "DROP TABLE cards" (by decide)).1⟩

/-- C3: on a valid verdict the page inserts only when no record with the
card number exists — the store's no-two-records-with-one-card-number
invariant is preserved, an existing record makes the page surface its id
with no insert, and only an absent number leads to the one insert. -/
theorem store_uniqueness (st : Store) (info : CardInfo) (vr : Verdict)
    (now : Value) (hv : vr.is_valid = true) (hd : distinctNumbers st) :
    distinctNumbers (analyzeStep st info vr now).1 ∧
      (∀ ex, get_card_by_number st (cardNumberOf info) = some ex →
        analyzeStep st info vr now =
          (st, .alreadyExists ex.1, [.lookup (cardNumberOf info)])) ∧
      (get_card_by_number st (cardNumberOf info) = none →
        analyzeStep st info vr now =
          (insert_card st
              (setKey (setKey info "is_valid" (.bool vr.is_valid))
                "processed_at" now),
            .inserted,
            [.lookup (cardNumberOf info),
              .insert (setKey (setKey info "is_valid" (.bool vr.is_valid))
                "processed_at" now)])) := by
  rcases hfind : get_card_by_number st (cardNumberOf info) with _ | ex
  · refine ⟨?_, by simp [hfind], fun _ => by simp [analyzeStep, hv, hfind]⟩
    have habs : ∀ r ∈ st.rows, cardNumberOf r.2 ≠ cardNumberOf info := by
      intro r hr
      have := List.find?_eq_none.mp hfind r hr
      simpa using this
    simp only [analyzeStep, hv, if_true, hfind, insert_card, distinctNumbers]
    rw [List.pairwise_append]
    refine ⟨hd, List.pairwise_singleton _ _, ?_⟩
    intro a ha b hb
    simp only [List.mem_singleton] at hb
    rw [hb]
    simpa [cardNumberOf_of_updates] using habs a ha
  · refine ⟨?_, ?_, by simp [hfind]⟩
    · simpa [analyzeStep, hv, hfind] using hd
    · intro ex2 hex2
      obtain rfl : ex2 = ex := by injection hex2 with h2; exact h2.symm
      simp [analyzeStep, hv, hfind]

/-- Witness for C3: a valid verdict over the empty store. -/
theorem store_uniqueness_witness :
    Verdict.is_valid ⟨true, []⟩ = true ∧
      distinctNumbers ⟨[], 0⟩ ∧
      distinctNumbers
        (analyzeStep ⟨[], 0⟩ [("card_number", .str "4532015112830366")]
          ⟨true, []⟩ (.str "2026-10-12")).1 :=
  ⟨rfl, List.Pairwise.nil,
    (store_uniqueness ⟨[], 0⟩ [("card_number", .str "4532015112830366")]
      ⟨true, []⟩ (.str "2026-10-12") rfl List.Pairwise.nil).1⟩

/-- C4: on an invalid verdict the failure is reported and the page touches
the store in no way — no lookup, no insert, store unchanged. -/
theorem invalid_no_store_op (st : Store) (info : CardInfo) (vr : Verdict)
    (now : Value) (hv : vr.is_valid = false) :
    analyzeStep st info vr now = (st, .invalidCard, []) := by
  simp [analyzeStep, hv]

/-- Witness for C4 at an invalid verdict over the empty store. -/
theorem invalid_no_store_op_witness :
    Verdict.is_valid ⟨false, [("card_number", "checksum failed")]⟩ = false ∧
      analyzeStep ⟨[], 0⟩ [("card_number", .str "4532015112830367")]
          ⟨false, [("card_number", "checksum failed")]⟩ (.str "t") =
        (⟨[], 0⟩, .invalidCard, []) :=
  ⟨rfl,
    invalid_no_store_op ⟨[], 0⟩ [("card_number", .str "4532015112830367")]
      ⟨false, [("card_number", "checksum failed")]⟩ (.str "t") rfl⟩

/-- C8: the record persisted for a valid, non-duplicate card is the
extractor's dict with exactly two fields set at insert time — `is_valid`
copied from the verdict and `processed_at` set to the timestamp — and
every other extracted field passed through unchanged. -/
theorem inserted_record_frame (st : Store) (info : CardInfo) (vr : Verdict)
    (now : Value) (hv : vr.is_valid = true)
    (hn : get_card_by_number st (cardNumberOf info) = none) :
    (analyzeStep st info vr now).1.rows =
        st.rows ++ [(st.nextId,
          setKey (setKey info "is_valid" (.bool vr.is_valid))
            "processed_at" now)] ∧
      getKey (setKey (setKey info "is_valid" (.bool vr.is_valid))
          "processed_at" now) "is_valid" = some (.bool vr.is_valid) ∧
      getKey (setKey (setKey info "is_valid" (.bool vr.is_valid))
          "processed_at" now) "processed_at" = some now ∧
      ∀ k, k ≠ "is_valid" → k ≠ "processed_at" →
        getKey (setKey (setKey info "is_valid" (.bool vr.is_valid))
            "processed_at" now) k = getKey info k := by
  refine ⟨by simp [analyzeStep, hv, hn, insert_card], ?_, ?_, ?_⟩
  · rw [getKey_setKey_other _ _ _ _ (by decide), getKey_setKey_same]
  · rw [getKey_setKey_same]
  · intro k hk1 hk2
    rw [getKey_setKey_other _ _ _ _ hk2, getKey_setKey_other _ _ _ _ hk1]

/-- Witness for C8: a valid verdict and a card number absent from the
empty store. -/
theorem inserted_record_frame_witness :
    Verdict.is_valid ⟨true, []⟩ = true ∧
      get_card_by_number ⟨[], 0⟩
          (cardNumberOf [("card_number", .str "4532015112830366")]) = none ∧
      (analyzeStep ⟨[], 0⟩ [("card_number", .str "4532015112830366")]
            ⟨true, []⟩ (.str "t")).1.rows =
        [(0, setKey (setKey [("card_number", .str "4532015112830366")]
          "is_valid" (.bool true)) "processed_at" (.str "t"))] :=
  ⟨rfl, rfl,
    (inserted_record_frame ⟨[], 0⟩
      [("card_number", .str "4532015112830366")] ⟨true, []⟩ (.str "t")
      rfl rfl).1⟩

/-- C6: a null collaborator result stops the flow with a user-visible
failure and no record is written — a null blob-upload result yields the
upload-failure message with extraction skipped (the flag is `false`), and
a null extraction result yields the unable-to-analyze message; in both
cases the page leaves the store untouched. -/
theorem null_collaborator_stops
    (detect : String → Except String (Option CardInfo))
    (validate : CardInfo → Except String Verdict)
    (st : Store) (now : Value) (url : String)
    (hurl : url.isEmpty = false)
    (hdet : detect url = .ok none) :
    process_card_analysis (.ok none) detect validate =
        (none, ["Error uploading image to Blob Storage."], false) ∧
      card_analysis_full (.ok none) detect validate st now = (st, []) ∧
      process_card_analysis (.ok (some url)) detect validate =
        (none, ["Unable to analyze card."], true) ∧
      card_analysis_full (.ok (some url)) detect validate st now =
        (st, []) := by
  refine ⟨rfl, rfl, ?_, ?_⟩
  · simp [process_card_analysis, hurl, hdet]
  · simp [card_analysis_full, process_card_analysis, hurl, hdet]

/-- Witness for C6 with a URL "u" and an extractor returning null. -/
theorem null_collaborator_stops_witness :
    String.isEmpty "u" = false ∧
      (fun _ : String => (Except.ok none : Except String (Option CardInfo)))
          "u" = .ok none ∧
      process_card_analysis (.ok (some "u"))
          (fun _ => (.ok none : Except String (Option CardInfo)))
          (fun _ => .ok ⟨true, []⟩) =
        (none, ["Unable to analyze card."], true) :=
  ⟨rfl, rfl,
    (null_collaborator_stops
      (fun _ => (.ok none : Except String (Option CardInfo)))
      (fun _ => .ok ⟨true, []⟩) ⟨[], 0⟩ (.str "t") "u" rfl rfl).2.2.1⟩

/-- C9: `process_card_analysis` never propagates an exception — its result
is always a pair or `none`, an exception raised by the upload, extraction
or validation collaborator is converted to the reported error message with
result `none`, and a `none` result always comes with a reported
message. -/
theorem process_no_exception_escapes
    (upload : Except String (Option String))
    (detect : String → Except String (Option CardInfo))
    (validate : CardInfo → Except String Verdict) :
    ((process_card_analysis upload detect validate).1 = none ∨
        ∃ p, (process_card_analysis upload detect validate).1 = some p) ∧
      (∀ e, upload = .error e →
        process_card_analysis upload detect validate =
          (none, ["Error during card analysis: " ++ e], false)) ∧
      (∀ url e, upload = .ok (some url) → url.isEmpty = false →
        detect url = .error e →
        process_card_analysis upload detect validate =
          (none, ["Error during card analysis: " ++ e], true)) ∧
      (∀ url info e, upload = .ok (some url) → url.isEmpty = false →
        detect url = .ok (some info) → info.isEmpty = false →
        validate info = .error e →
        process_card_analysis upload detect validate =
          (none, ["Error during card analysis: " ++ e], true)) ∧
      ((process_card_analysis upload detect validate).1 = none →
        (process_card_analysis upload detect validate).2.1 ≠ []) := by
  refine ⟨?_, ?_, ?_, ?_, ?_⟩
  · rcases (process_card_analysis upload detect validate).1 with _ | p
    · exact Or.inl rfl
    · exact Or.inr ⟨p, rfl⟩
  · intro e he
    rw [he]
    rfl
  · intro url e hu hurl hdet
    rw [hu]
    simp [process_card_analysis, hurl, hdet]
  · intro url info e hu hurl hdet hinfo hval
    rw [hu]
    simp [process_card_analysis, hurl, hdet, hinfo, hval]
  · rcases upload with e | u
    · intro _; simp [process_card_analysis]
    · rcases u with _ | url
      · intro _; simp [process_card_analysis]
      · by_cases hurl : url.isEmpty
        · intro _; simp [process_card_analysis, hurl]
        · rcases hdet : detect url with e | ci
          · intro _
            simp [process_card_analysis, hurl, hdet]
          · rcases ci with _ | info
            · intro _; simp [process_card_analysis, hurl, hdet]
            · by_cases hinfo : info.isEmpty
              · intro _; simp [process_card_analysis, hurl, hdet, hinfo]
              · rcases hval : validate info with e | vr
                · intro _
                  simp [process_card_analysis, hurl, hdet, hinfo, hval]
                · intro habs
                  simp [process_card_analysis, hurl, hdet, hinfo, hval]
                    at habs

/-- C10: on the custom-query page a `ValueError` is shown as a validation
error, any other exception as an execution error, an empty result as the
informational no-results message, and a non-empty result as rows — no
outcome propagates. -/
theorem query_page_classifies (m : String) (rows : List CardInfo)
    (hne : rows ≠ []) :
    database_query_button (.error (.valueErr m)) = .validationShown m ∧
      database_query_button (.error (.otherErr m)) = .executionShown m ∧
      database_query_button (.ok []) = .infoNoResults ∧
      database_query_button (.ok rows) = .dataframeShown rows := by
  refine ⟨rfl, rfl, rfl, ?_⟩
  simp [database_query_button, hne]

/-- Witness for C10 with one result row. -/
theorem query_page_classifies_witness :
    ([[("card_number", Value.str "4532015112830366")]] :
        List CardInfo) ≠ [] ∧
      database_query_button
          (.ok [[("card_number", Value.str "4532015112830366")]]) =
        .dataframeShown [[("card_number", Value.str "4532015112830366")]] :=
  ⟨by simp,
    (query_page_classifies "boom"
      [[("card_number", Value.str "4532015112830366")]] (by simp)).2.2.2⟩

end CreditCardAnalyzer
